import Mathlib

/-!
Verification of the VCAP decision/automation engine against its
natural-language specification.

The definitions below are a shallow embedding of the Python sources:

* `modules/decision_engine.py`   — FSM decision engine (`DecisionEngine`)
* `modules/simple_automation.py` — linear step executor (`SimpleAutomation`)
* `modules/coordinate_scaler.py` — coordinate calibrator (`CoordinateScaler`)

Python dicts are modelled as association lists preserving insertion order,
Python floats as rationals (all computations relevant to the claims stay in
exactly representable values), machine ints as `Int`, and the mutable
`DecisionEngine` object as an explicit `Engine` state threaded through the
methods.  Python's string primitives (`lower`, `upper`, `startswith`,
`endswith`, `in`, `split`) are modelled by ASCII character-list functions,
which agree with Python on the ASCII element texts and configuration
strings the engine compares.
-/

namespace VCAP

attribute [local semireducible] Rat.ofScientific Rat.mul Rat.inv Rat.add Rat.sub

/-! ## String helpers

Python string primitives, implemented by structural recursion on the
character list so that concrete instances evaluate inside proofs. -/

/-- Python `str.lower` (ASCII). -/
def pyLower (s : String) : String := String.mk (s.toList.map Char.toLower)

/-- Python `str.upper` (ASCII). -/
def pyUpper (s : String) : String := String.mk (s.toList.map Char.toUpper)

/-- Python `s.startswith(pre)`. -/
def pyStartsWith (s pre : String) : Bool := pre.toList.isPrefixOf s.toList

/-- Python `s.endswith(suf)`. -/
def pyEndsWith (s suf : String) : Bool := suf.toList.isSuffixOf s.toList

/-- Fuel-bounded worker for `pySplit`; the fuel is the length of the
input, which bounds the number of steps since every step consumes at
least one character. -/
def pySplitAux (sep : List Char) : Nat → List Char → List Char → List (List Char)
  | _, [], acc => [acc.reverse]
  | 0, s, acc => [acc.reverse ++ s]
  | fuel + 1, c :: rest, acc =>
    if sep.isPrefixOf (c :: rest) then
      acc.reverse :: pySplitAux sep fuel (List.drop (sep.length - 1) rest) []
    else
      pySplitAux sep fuel rest (c :: acc)

/-- Python `s.split(sep)` for a non-empty separator. -/
def pySplit (s sep : String) : List String :=
  (pySplitAux sep.toList s.toList.length s.toList []).map String.mk

/-- Substring test on character lists: does `sub` occur as a contiguous
infix of the list?  Models Python's `sub in s`. -/
def listInfix (sub : List Char) : List Char → Bool
  | [] => sub.isEmpty
  | c :: t => sub.isPrefixOf (c :: t) || listInfix sub t

/-- Python `sub in s` on strings. -/
def strContains (s sub : String) : Bool :=
  listInfix sub.toList s.toList

/-! ## Actions

The engine builds and returns Python dicts such as
`{"type": "click", "x": 10, "y": 20}`.  We model an action as an ordered
association list of key/value pairs; the empty list is Python's empty
dict `{}` (a "no action"). -/

/-- A value stored in an action dict: string, int, or numeric (float). -/
inductive AVal where
  | s (v : String)
  | i (v : Int)
  | q (v : ℚ)
deriving DecidableEq

/-- An action dict, as an ordered list of key/value pairs. -/
abbrev Action := List (String × AVal)

/-- `{"type": "click", "x": x, "y": y}` -/
def clickAction (x y : Int) : Action :=
  [("type", AVal.s "click"), ("x", AVal.i x), ("y", AVal.i y)]

/-- `{"type": "key", "key": k}` -/
def keyAction (k : String) : Action :=
  [("type", AVal.s "key"), ("key", AVal.s k)]

/-- `{"type": "wait", "duration": d}` -/
def waitAction (d : ℚ) : Action :=
  [("type", AVal.s "wait"), ("duration", AVal.q d)]

/-- The default escape-key fallback of `get_fallback_action`. -/
def escapeAction : Action := keyAction "escape"

/-- Python dict `.get` / key lookup on an association list. -/
def alookup {α : Type} (l : List (String × α)) (k : String) : Option α :=
  (l.find? (fun p => p.1 = k)).map Prod.snd

/-! ## Data model -/

/-- A detected UI element (`BoundingBox` dataclass of `gemma_client`,
fields as constructed by the detector clients). -/
structure BoundingBox where
  x : Int
  y : Int
  width : Int
  height : Int
  confidence : ℚ
  element_type : String
  element_text : String
deriving DecidableEq

/-- An element criterion as read from the configuration dict, with the
defaults the Python `.get` calls apply (`type` "any", `text` "",
`text_match` "exact" in the decision engine, `required_confidence` 0.6). -/
structure Criterion where
  type : String := "any"
  text : String := ""
  text_match : String := "exact"
  required_confidence : ℚ := 0.6
deriving DecidableEq

/-- A state definition: required and excluded element criteria. -/
structure StateDef where
  required_elements : List Criterion := []
  exclude_elements : List Criterion := []
deriving DecidableEq

/-! ## Element matcher (`DecisionEngine._find_matching_element`) -/

/-- Type matching as in `_find_matching_element`:
`req_type == "any" or not req_type or bbox.element_type == req_type`. -/
def typeMatches (reqType elemType : String) : Bool :=
  reqType == "any" || reqType == "" || elemType == reqType

/-- Text matching as in `_find_matching_element`: if both the element text
and the target text are non-empty, apply the configured strategy; if the
target text is empty, match unconditionally; otherwise fail. -/
def textMatches (matchType reqText elemText : String) : Bool :=
  if reqText == "" then true
  else if elemText == "" then false
  else if matchType == "exact" then pyLower reqText == pyLower elemText
  else if matchType == "contains" then strContains (pyLower elemText) (pyLower reqText)
  else if matchType == "startswith" then pyStartsWith (pyLower elemText) (pyLower reqText)
  else if matchType == "endswith" then pyEndsWith (pyLower elemText) (pyLower reqText)
  else false

/-- Exclusion matching (lines 90-114 of `decision_engine.py`): type and
text only — no confidence check. -/
def exclMatches (c : Criterion) (b : BoundingBox) : Bool :=
  typeMatches c.type b.element_type && textMatches c.text_match c.text b.element_text

/-- Required-element matching (lines 134-163): type, text and the
confidence threshold `bbox.confidence >= min_confidence`. -/
def reqMatches (c : Criterion) (b : BoundingBox) : Bool :=
  typeMatches c.type b.element_type && textMatches c.text_match c.text b.element_text
    && decide (c.required_confidence ≤ b.confidence)

/-- The synthetic anchor returned when a state has no required elements. -/
def dummyBox : BoundingBox :=
  { x := 0, y := 0, width := 0, height := 0, confidence := 1,
    element_type := "dummy", element_text := "No required elements" }

/-- The required-element loop: each criterion is matched against the first
satisfying element; if any criterion finds none the scan fails; the bbox
matched by the last criterion is returned (Python keeps overwriting
`matching_bbox`). -/
def scanRequired (bs : List BoundingBox) : List Criterion → Option BoundingBox
  | [] => none
  | [c] => bs.find? (fun b => reqMatches c b)
  | c :: cs =>
    match bs.find? (fun b => reqMatches c b) with
    | none => none
    | some _ => scanRequired bs cs

/-- `DecisionEngine._find_matching_element`: exclusions are evaluated
first over all elements; then either the trivial match (no required
elements) or the required-element scan. -/
def find_matching_element (sd : StateDef) (bs : List BoundingBox) : Option BoundingBox :=
  if sd.exclude_elements.any (fun c => bs.any (fun b => exclMatches c b)) then none
  else if sd.required_elements.isEmpty then some dummyBox
  else scanRequired bs sd.required_elements

/-! ## FSM engine state (`DecisionEngine`) -/

/-- The context-variable dict `state_context`; only the keys
`"in_benchmark"`, `"benchmark_run"` and `"benchmark_duration"` are ever
read or written by the engine. -/
structure Ctx where
  in_benchmark : Bool := false
  benchmark_run : Bool := false
  benchmark_duration : Option ℚ := none
deriving DecidableEq

/-- A transition definition from the configuration, with the `.get`
defaults applied (`action` "", `key` "", `duration` 1, target criterion
dict defaulting to `{}`).  `hardcoded_coords`/`fallback_coords` are
`some (x, y)` when the config declares a (truthy, for `fallback_coords`)
coordinate dict, with the inner `.get("x", 0)` defaults resolved. -/
structure Transition where
  action : String := ""
  hardcoded_coords : Option (Int × Int) := none
  target : Criterion := {}
  fallback_coords : Option (Int × Int) := none
  key : String := ""
  duration : ℚ := 1
deriving DecidableEq

/-- The mutable state of a `DecisionEngine` object.  `states`,
`transitions` and `fallbacks` are the configuration dicts (insertion
order preserved); the remaining fields are the mutable bookkeeping set up
in `__init__`. -/
structure Engine where
  states : List (String × StateDef) := []
  transitions : List (String × Transition) := []
  fallbacks : List (String × Action) := []
  current_state : String := "initial"
  target_state : String := "completed"
  state_history : List String := []
  state_context : Ctx := {}
  visited_states : List String := []
  transitions_taken : List String := []
  state_start_times : List (String × ℚ) := []
  benchmark_started_at : Option ℚ := none
  benchmark_completed_at : Option ℚ := none
deriving DecidableEq

/-- `DecisionEngine.__init__`: fresh bookkeeping (empty history, empty
visited set, empty context) around the configured dicts. -/
def mkEngine (states : List (String × StateDef)) (transitions : List (String × Transition))
    (fallbacks : List (String × Action)) (initial target : String) : Engine :=
  { states := states, transitions := transitions, fallbacks := fallbacks,
    current_state := initial, target_state := target }

/-- Python `set.add` on a membership-only set modelled as a list. -/
def insertStr (l : List String) (s : String) : List String :=
  if s ∈ l then l else l ++ [s]

/-- Python dict assignment `d[k] = v`. -/
def dictSet (l : List (String × ℚ)) (k : String) (v : ℚ) : List (String × ℚ) :=
  if (alookup l k).isSome then l.map (fun p => if p.1 = k then (k, v) else p)
  else l ++ [(k, v)]

/-! ## State identifier (`_identify_current_state`) -/

/-- The keyword list of `_is_likely_benchmark_results`. -/
def result_keywords : List String :=
  ["result", "fps", "score", "performance", "benchmark", "complete", "average"]

/-- `DecisionEngine._is_likely_benchmark_results`. -/
def is_likely_benchmark_results (bs : List BoundingBox) : Bool :=
  bs.any fun b =>
    b.element_text != "" && result_keywords.any (fun k => strContains (pyLower b.element_text) k)

/-- `DecisionEngine._identify_current_state`: context short-circuit,
then the per-state match, then the disambiguation heuristics.  A pure
function of the engine's `state_context`, `state_history`, `states` and
`transitions` — the Python method performs no assignment. -/
def identify_current_state (e : Engine) (bs : List BoundingBox) : String :=
  if e.state_context.in_benchmark ∧ e.state_history ≠ [] ∧
      e.state_history.getLast? = some "benchmark_running" ∧
      is_likely_benchmark_results bs then
    "benchmark_complete"
  else
    let matching := (e.states.filter (fun p => (find_matching_element p.2 bs).isSome)).map Prod.fst
    match matching with
    | [] => "unknown"
    | [s] => s
    | _ =>
      let byTransition : Option String :=
        match e.state_history.getLast? with
        | none => none
        | some current =>
          matching.find? (fun cand => (e.transitions.map Prod.fst).contains (current ++ "->" ++ cand))
      match byTransition with
      | some c => c
      | none =>
        if "benchmark_running" ∈ matching ∧ "benchmark_complete" ∈ matching then
          if e.state_context.benchmark_run then "benchmark_complete" else "benchmark_running"
        else matching.headD "unknown"

/-! ## Transition selection and actions -/

/-- `DecisionEngine._select_next_state`: enumerate transition keys whose
prefix is `current->`, take the first unvisited target when there are
several, else the first declared. -/
def select_next_state (e : Engine) (current : String) : String :=
  let possible := e.transitions.filterMap (fun p =>
    if pyStartsWith p.1 (current ++ "->") then some ((pySplit p.1 "->").getD 1 "") else none)
  if possible = [] then ""
  else if possible.length > 1 then
    match possible.filter (fun s => s ∉ e.visited_states) with
    | u :: _ => u
    | [] => possible.headD ""
  else possible.headD ""

/-- `DecisionEngine.get_fallback_action`: state-specific fallback if
declared truthy, else the general fallback if declared truthy, else the
default escape-key action.  (A Python dict value is truthy iff
non-empty, hence the `≠ []` guards.) -/
def get_fallback_action (fallbacks : List (String × Action)) (current_state : String) : Action :=
  let state_fallback := (alookup fallbacks current_state).getD []
  if state_fallback ≠ [] then state_fallback
  else
    let general_fallback := (alookup fallbacks "general").getD []
    if general_fallback ≠ [] then general_fallback
    else escapeAction

/-- The click branch of `_get_action_for_transition`: locate the target
element (type/text matching, no confidence check), click its center,
else use fallback coordinates, else no action. -/
def clickResolve (t : Transition) (bs : List BoundingBox) : Action :=
  match bs.find? (fun b =>
      typeMatches t.target.type b.element_type &&
      textMatches t.target.text_match t.target.text b.element_text) with
  | some b => clickAction (b.x + Int.fdiv b.width 2) (b.y + Int.fdiv b.height 2)
  | none =>
    match t.fallback_coords with
    | some c => clickAction c.1 c.2
    | none => []

/-- `DecisionEngine._get_action_for_transition` as a state transformer:
records the transition key in `transitions_taken`, honours hardcoded
coordinates first, then the click/key/wait action kinds (the wait branch
sets the `in_benchmark` context flag for benchmark transitions). -/
def get_action_for_transition (e : Engine) (from_state to_state : String)
    (bs : List BoundingBox) : Action × Engine :=
  match alookup e.transitions (from_state ++ "->" ++ to_state) with
  | none => ([], e)
  | some t =>
    let e1 := { e with transitions_taken := insertStr e.transitions_taken (from_state ++ "->" ++ to_state) }
    match t.hardcoded_coords with
    | some c => (clickAction c.1 c.2, e1)
    | none =>
      if t.action = "click" then (clickResolve t bs, e1)
      else if t.action = "key" then
        (if t.key ≠ "" then keyAction t.key else [], e1)
      else if t.action = "wait" then
        (waitAction t.duration,
         if from_state = "benchmark_running" ∨ to_state = "benchmark_complete" then
           { e1 with state_context := { e1.state_context with in_benchmark := true } }
         else e1)
      else ([], e1)

/-- The first half of `DecisionEngine.track_benchmark_timing`: on the
first transition into `benchmark_running`, record the start time and set
the `in_benchmark` context flag. -/
def track_start (e : Engine) (new_state : String) (now : ℚ) : Engine :=
  if new_state = "benchmark_running" ∧ e.benchmark_started_at = none then
    { e with benchmark_started_at := some now,
             state_context := { e.state_context with in_benchmark := true } }
  else e

/-- The second half of `track_benchmark_timing`: on the transition from
`benchmark_running` to `benchmark_complete`, record the completion time,
set the `benchmark_run` flag, and, when a start time exists, the
benchmark duration. -/
def track_complete (e : Engine) (current_state new_state : String) (now : ℚ) : Engine :=
  if current_state = "benchmark_running" ∧ new_state = "benchmark_complete" then
    match e.benchmark_started_at with
    | some started =>
      { e with benchmark_completed_at := some now,
               state_context :=
                 { e.state_context with benchmark_run := true,
                                        benchmark_duration := some (now - started) } }
    | none =>
      { e with benchmark_completed_at := some now,
               state_context := { e.state_context with benchmark_run := true } }
  else e

/-- `DecisionEngine.track_benchmark_timing`; `now` stands for the value
of `time.time()` during this call. -/
def track_benchmark_timing (e : Engine) (current_state new_state : String) (now : ℚ) : Engine :=
  track_complete (track_start e new_state now) current_state new_state now

/-! ## `determine_next_action` -/

/-- The history update at the top of `determine_next_action`: append the
state when the history is empty or ends in a different state, add it to
the visited set and stamp its entry time. -/
def historyUpdate (e : Engine) (s : String) (now : ℚ) : Engine :=
  if e.state_history = [] ∨ e.state_history.getLast? ≠ some s then
    { e with state_history := e.state_history ++ [s],
             visited_states := insertStr e.visited_states s,
             state_start_times := dictSet e.state_start_times s now }
  else e

/-- The second history update (after a state correction), guarded by a
non-empty history. -/
def historyUpdate2 (e : Engine) (s : String) (now : ℚ) : Engine :=
  if e.state_history ≠ [] ∧ e.state_history.getLast? ≠ some s then
    { e with state_history := e.state_history ++ [s],
             visited_states := insertStr e.visited_states s,
             state_start_times := dictSet e.state_start_times s now }
  else e

/-- The state verified from the detected elements, as computed inside
`determine_next_action` (after the initial history update). -/
def verifiedOf (e : Engine) (cs0 : String) (bs : List BoundingBox) (now : ℚ) : String :=
  identify_current_state (historyUpdate e cs0 now) bs

/-- The effective current state after the state-correction step. -/
def correctedState (e : Engine) (cs0 : String) (bs : List BoundingBox) (now : ℚ) : String :=
  if verifiedOf e cs0 bs now ≠ "unknown" ∧ verifiedOf e cs0 bs now ≠ cs0 then
    verifiedOf e cs0 bs now
  else cs0

/-- The engine state after the state-correction step. -/
def correctedEngine (e : Engine) (cs0 : String) (bs : List BoundingBox) (now : ℚ) : Engine :=
  if verifiedOf e cs0 bs now ≠ "unknown" ∧ verifiedOf e cs0 bs now ≠ cs0 then
    historyUpdate2 (historyUpdate e cs0 now) (verifiedOf e cs0 bs now) now
  else historyUpdate e cs0 now

/-- `DecisionEngine.determine_next_action` as a state transformer:
returns the action, the new state, and the updated engine.  `now`
abstracts `time.time()` within the call. -/
def determine_next_action (e : Engine) (cs0 : String) (bs : List BoundingBox) (now : ℚ) :
    Action × String × Engine :=
  let verified := verifiedOf e cs0 bs now
  let cs := correctedState e cs0 bs now
  let e2 := correctedEngine e cs0 bs now
  if cs = e2.target_state then ([], cs, e2)
  else if select_next_state e2 cs = "" then
    if cs ≠ "initial" ∧ verified = "unknown" then (waitAction 3, "initial", e2)
    else if cs = "unknown" ∨ verified = "unknown" then
      (get_fallback_action e2.fallbacks cs, cs, e2)
    else ([], cs, e2)
  else
    ((get_action_for_transition e2 cs (select_next_state e2 cs) bs).1,
     select_next_state e2 cs,
     track_benchmark_timing (get_action_for_transition e2 cs (select_next_state e2 cs) bs).2
       cs (select_next_state e2 cs) now)

/-- `_identify_current_state` as a state transformer (the method reads
the engine and performs no assignment, so the state component is the
unchanged engine). -/
def identify_current_state_call (e : Engine) (bs : List BoundingBox) : String × Engine :=
  (identify_current_state e bs, e)

/-! ## Linear step executor (`SimpleAutomation`) -/

/-- Type matching of `SimpleAutomation._find_matching_element`:
`target_type == "any" or bbox.element_type == target_type` (no empty-string
clause, unlike the decision engine). -/
def sa_type_match (targetType elemType : String) : Bool :=
  targetType == "any" || elemType == targetType

/-- `SimpleAutomation._find_matching_element`: first element matching
type and text (same text strategies as the decision engine; note there is
no confidence check here). -/
def sa_find_matching_element (tgt : Criterion) (bs : List BoundingBox) : Option BoundingBox :=
  bs.find? (fun b =>
    sa_type_match tgt.type b.element_type && textMatches tgt.text_match tgt.text b.element_text)

/-- The `find` gate at the top of `_process_step_modular`: when the step
declares a `find` criterion and no element matches it, the step fails
immediately; otherwise the step's outcome is that of executing and
verifying its action (abstracted as `restOutcome`, since it involves the
external action dispatcher and a re-observation of the screen). -/
def process_step_result (find : Option Criterion) (bs : List BoundingBox)
    (restOutcome : Bool) : Bool :=
  match find with
  | some f => if sa_find_matching_element f bs = none then false else restOutcome
  | none => restOutcome

/-- The collaborator outcomes observed by one iteration of the `run`
loop: the stop event, whether an optional interrupt step was handled,
whether the screenshot capture and the element detection succeeded, and
the outcome of `_process_step_modular` for the current step. -/
structure IterInput where
  stop : Bool := false
  optionalHandled : Bool := false
  captureOk : Bool := true
  detectOk : Bool := true
  stepSuccess : Bool := false
deriving DecidableEq

/-- An iteration that reaches `_process_step_modular` and fails there. -/
def failingAttempt (i : IterInput) : Prop :=
  i.stop = false ∧ i.optionalHandled = false ∧ i.captureOk = true ∧
    i.detectOk = true ∧ i.stepSuccess = false

/-- The `while current_step <= len(steps)` loop of `SimpleAutomation.run`
(steps normalized to keys `"1"..str(N)`), driven by the list of
per-iteration collaborator outcomes.  Returns `none` when the outcome
list runs out with the loop still running, otherwise the value `run`
returns, paired with the number of attempts of `_process_step_modular`
made so far.  Mirrors the source exactly: a step failure increments the
shared `retries` counter and aborts with `False` once it reaches
`max_retries`; a success advances the step and resets the counter; the
stop event breaks out of the loop (returning `current_step > len(steps)`,
which is false at that point). -/
def runLoop (numSteps maxRetries : Nat) :
    List IterInput → Nat → Nat → Nat → Option Bool × Nat
  | [], currentStep, _, attempts =>
    if currentStep > numSteps then (some true, attempts) else (none, attempts)
  | inp :: rest, currentStep, retries, attempts =>
    if currentStep > numSteps then (some true, attempts)
    else if inp.stop then (some false, attempts)
    else if inp.optionalHandled then runLoop numSteps maxRetries rest currentStep retries attempts
    else if inp.captureOk = false then
      if retries + 1 ≥ maxRetries then (some false, attempts)
      else runLoop numSteps maxRetries rest currentStep (retries + 1) attempts
    else if inp.detectOk = false then
      if retries + 1 ≥ maxRetries then (some false, attempts)
      else runLoop numSteps maxRetries rest currentStep (retries + 1) attempts
    else if inp.stepSuccess then
      runLoop numSteps maxRetries rest (currentStep + 1) 0 (attempts + 1)
    else if retries + 1 ≥ maxRetries then (some false, attempts + 1)
    else runLoop numSteps maxRetries rest currentStep (retries + 1) (attempts + 1)

/-- `SimpleAutomation.run`: empty step list fails immediately; otherwise
the loop starts at step 1 with `max_retries = 3` and `retries = 0`. -/
def sa_run (numSteps : Nat) (inputs : List IterInput) : Option Bool × Nat :=
  if numSteps = 0 then (some false, 0)
  else runLoop numSteps 3 inputs 1 0 0

/-! ## Coordinate calibrator (`CoordinateScaler`) -/

/-- Python `int()` on a rational: truncation toward zero. -/
def pyInt (q : ℚ) : Int :=
  if q < 0 then -⌊-q⌋ else ⌊q⌋

/-- The `reference_elements` dict of `CoordinateScaler.__init__`:
reference label ↦ expected relative screen position. -/
def reference_elements : List (String × ℚ × ℚ) :=
  [("PLAY", (0.5, 0.05)), ("INVENTORY", (0.4, 0.05)), ("STORE", (0.6, 0.05)),
   ("NEWS", (0.7, 0.05)), ("LOADOUT", (0.45, 0.05))]

/-- The reference entry for an element, when its text is non-empty and
its upper-cased text is a known reference label. -/
def refOf (b : BoundingBox) : Option (ℚ × ℚ) :=
  if b.element_text ≠ "" then alookup reference_elements (pyUpper b.element_text) else none

/-- Center x of a detected element (`bbox.x + bbox.width // 2`). -/
def detCenterX (b : BoundingBox) : Int := b.x + Int.fdiv b.width 2

/-- Center y of a detected element (`bbox.y + bbox.height // 2`). -/
def detCenterY (b : BoundingBox) : Int := b.y + Int.fdiv b.height 2

/-- Mutable state of a `CoordinateScaler`, with the `__init__` values as
defaults. -/
structure ScalerState where
  screen_width : Nat := 1920
  screen_height : Nat := 1080
  gemma_assumed_width : Nat := 800
  gemma_assumed_height : Nat := 600
  scale_x : ℚ := 1
  scale_y : ℚ := 1
  calibrated : Bool := false
  calibration_count : Nat := 0
  max_calibration_samples : Nat := 3
  sum_scale_x : ℚ := 0
  sum_scale_y : ℚ := 0
deriving DecidableEq

/-- Accumulator of the reference-element scan inside
`calibrate_from_screenshot`. -/
structure CalScan where
  found_reference : Bool := false
  suggested_scale_x : ℚ := 0
  suggested_scale_y : ℚ := 0
  total_elements : Nat := 0
deriving DecidableEq

/-- One iteration of the reference-element scan: a recognized reference
label within the tolerance window contributes its implied scale factor
(when its detected center coordinate is positive) and counts as a
qualifying element. -/
def calScanStep (w fh : Nat) (acc : CalScan) (b : BoundingBox) : CalScan :=
  match refOf b with
  | none => acc
  | some r =>
    let ex : Int := pyInt (r.1 * w)
    let ey : Int := pyInt (r.2 * fh)
    if |(detCenterX b : ℚ) - (ex : ℚ)| < (w : ℚ) / 3 ∧
        |(detCenterY b : ℚ) - (ey : ℚ)| < (fh : ℚ) / 3 then
      { found_reference := true,
        suggested_scale_x :=
          acc.suggested_scale_x + (if 0 < detCenterX b then (ex : ℚ) / (detCenterX b : ℚ) else 0),
        suggested_scale_y :=
          acc.suggested_scale_y + (if 0 < detCenterY b then (ey : ℚ) / (detCenterY b : ℚ) else 0),
        total_elements := acc.total_elements + 1 }
    else acc

/-- The reference-element scan of `calibrate_from_screenshot` over all
detected elements. -/
def calScan (w fh : Nat) (bs : List BoundingBox) : CalScan :=
  bs.foldl (calScanStep w fh) {}

/-- `CoordinateScaler.calibrate_from_screenshot`, with the screenshot's
actual dimensions `w × fh` passed in place of the image file: scan the
elements for qualifying references; if any were found, fold their average
implied scale (`suggested_scale / total_elements`) into the running
average `sum_scale / calibration_count` and mark the model calibrated
once `max_calibration_samples` samples have accumulated; otherwise just
record the image dimensions. -/
def calibrate_from_screenshot (st : ScalerState) (w fh : Nat) (bs : List BoundingBox) :
    ScalerState :=
  if (calScan w fh bs).found_reference = true ∧ (calScan w fh bs).total_elements > 0 then
    if st.calibration_count + 1 ≥ st.max_calibration_samples then
      { st with
        sum_scale_x :=
          st.sum_scale_x + (calScan w fh bs).suggested_scale_x / ((calScan w fh bs).total_elements : ℚ),
        sum_scale_y :=
          st.sum_scale_y + (calScan w fh bs).suggested_scale_y / ((calScan w fh bs).total_elements : ℚ),
        calibration_count := st.calibration_count + 1,
        scale_x :=
          (st.sum_scale_x + (calScan w fh bs).suggested_scale_x / ((calScan w fh bs).total_elements : ℚ)) /
            ((st.calibration_count + 1 : Nat) : ℚ),
        scale_y :=
          (st.sum_scale_y + (calScan w fh bs).suggested_scale_y / ((calScan w fh bs).total_elements : ℚ)) /
            ((st.calibration_count + 1 : Nat) : ℚ),
        calibrated := true }
    else
      { st with
        sum_scale_x :=
          st.sum_scale_x + (calScan w fh bs).suggested_scale_x / ((calScan w fh bs).total_elements : ℚ),
        sum_scale_y :=
          st.sum_scale_y + (calScan w fh bs).suggested_scale_y / ((calScan w fh bs).total_elements : ℚ),
        calibration_count := st.calibration_count + 1,
        scale_x :=
          (st.sum_scale_x + (calScan w fh bs).suggested_scale_x / ((calScan w fh bs).total_elements : ℚ)) /
            ((st.calibration_count + 1 : Nat) : ℚ),
        scale_y :=
          (st.sum_scale_y + (calScan w fh bs).suggested_scale_y / ((calScan w fh bs).total_elements : ℚ)) /
            ((st.calibration_count + 1 : Nat) : ℚ) }
  else
    { st with screen_width := w, screen_height := fh }

/-- A detected element qualifies as a calibration reference: recognized
label and detected center within the tolerance window. -/
def qualifies (w fh : Nat) (b : BoundingBox) : Bool :=
  match refOf b with
  | none => false
  | some r =>
    decide (|(detCenterX b : ℚ) - (pyInt (r.1 * w) : ℚ)| < (w : ℚ) / 3) &&
    decide (|(detCenterY b : ℚ) - (pyInt (r.2 * fh) : ℚ)| < (fh : ℚ) / 3)

/-- A qualifying element's detected center coincides exactly with its
expected position, with positive coordinates (so that the implied scale
factor is defined, and equal to 1, on both axes). -/
def coincides (w fh : Nat) (b : BoundingBox) : Bool :=
  match refOf b with
  | none => false
  | some r =>
    decide (detCenterX b = pyInt (r.1 * w)) && decide (detCenterY b = pyInt (r.2 * fh)) &&
    decide (0 < detCenterX b) && decide (0 < detCenterY b)

/-- A qualifying observation in the sense of claim C7: at least one
element qualifies as a reference, and every qualifying element's detected
center coincides exactly with its expected position. -/
def goodObs (w fh : Nat) (bs : List BoundingBox) : Prop :=
  (∃ b ∈ bs, qualifies w fh b = true) ∧
    ∀ b ∈ bs, qualifies w fh b = true → coincides w fh b = true

/-! ## Shared helper lemmas -/

/-- If some exclusion criterion matches some element, the element finder
disqualifies the state. -/
theorem find_none_of_exclusion {sd : StateDef} {bs : List BoundingBox}
    (h : ∃ c ∈ sd.exclude_elements, ∃ b ∈ bs, exclMatches c b = true) :
    find_matching_element sd bs = none := by
  have hany : sd.exclude_elements.any (fun c => bs.any (fun b => exclMatches c b)) = true := by
    rw [List.any_eq_true]
    obtain ⟨c, hc, b, hb, hm⟩ := h
    exact ⟨c, hc, by rw [List.any_eq_true]; exact ⟨b, hb, hm⟩⟩
  unfold find_matching_element
  rw [if_pos hany]

/-! ## Claim C1 -/

/-- The criterion dict `{}` of claim C1: empty text, type `any`, with the
defaulted minimum confidence 0.6. -/
def c1Criterion : Criterion := {}

/-- A detected element with confidence 0, matched by no exclusion
criterion (the state declares none). -/
def c1Box : BoundingBox :=
  { x := 10, y := 10, width := 4, height := 4, confidence := 0,
    element_type := "button", element_text := "Play" }

/-- Claim C1 is false as stated: for the `ElementCriterion` with empty
text and type `any` (and defaulted confidence threshold 0.6), the
detected element `c1Box` with confidence 0 is matched by no exclusion
criterion (the state declares none), yet it does not satisfy the
criterion in the required-element scan, and `_find_matching_element`
returns none for the state requiring just that criterion — the scan is
not independent of the confidence score. -/
theorem C1_counterexample :
    reqMatches c1Criterion c1Box = false ∧
    find_matching_element { required_elements := [c1Criterion] } [c1Box] = none := by
  decide

/-- Claim C1, amended: for every `ElementCriterion` with empty text and
type `any`, every element whose confidence is at least the criterion's
minimum confidence (default 0.6) satisfies that criterion in the
required-element scan of `_find_matching_element`. -/
theorem C1_empty_text_any_type_matches (c : Criterion) (b : BoundingBox)
    (htype : c.type = "any") (htext : c.text = "")
    (hconf : c.required_confidence ≤ b.confidence) :
    reqMatches c b = true := by
  simp [reqMatches, typeMatches, textMatches, htype, htext, hconf]

/-- Witness for the amended claim C1 at a concrete criterion and
element. -/
theorem C1_empty_text_any_type_matches_witness :
    reqMatches { } { x := 0, y := 0, width := 1, height := 1, confidence := 0.9,
                     element_type := "button", element_text := "Play" } = true :=
  C1_empty_text_any_type_matches _ _ rfl rfl (by norm_num)

/-! ## Claim C2 -/

/-- Claim C2: exclusion criteria take precedence — whenever some detected
element satisfies some exclusion criterion of the state definition,
`_find_matching_element` returns none, regardless of the required
criteria (in particular even when all of them are satisfied). -/
theorem C2_exclusion_precedence (sd : StateDef) (bs : List BoundingBox)
    (h : ∃ c ∈ sd.exclude_elements, ∃ b ∈ bs, exclMatches c b = true) :
    find_matching_element sd bs = none :=
  find_none_of_exclusion h

/-- Witness for claim C2: a state whose required criterion (`button`
"Play") is satisfied by the first element and whose exclusion criterion
(text containing "Error") is satisfied by the second still fails to
match. -/
theorem C2_exclusion_precedence_witness :
    find_matching_element
      { required_elements := [{ type := "button", text := "Play" }],
        exclude_elements := [{ type := "any", text := "Error", text_match := "contains" }] }
      [{ x := 100, y := 50, width := 80, height := 20, confidence := 0.9,
         element_type := "button", element_text := "Play" },
       { x := 0, y := 0, width := 10, height := 10, confidence := 0.1,
         element_type := "text", element_text := "Fatal Error" }] = none :=
  C2_exclusion_precedence _ _ (by decide)

/-! ## Claim C9 -/

/-- Claim C9: exclusion matching ignores confidence — an element whose
type and text satisfy an exclusion criterion of the state disqualifies
the state via `_find_matching_element` with no condition on its
confidence score — while required-element matching does enforce the
minimum-confidence threshold. -/
theorem C9_exclusion_ignores_confidence :
    (∀ (sd : StateDef) (bs : List BoundingBox) (c : Criterion) (b : BoundingBox),
        c ∈ sd.exclude_elements → b ∈ bs →
        typeMatches c.type b.element_type = true →
        textMatches c.text_match c.text b.element_text = true →
        find_matching_element sd bs = none) ∧
    (∀ (c : Criterion) (b : BoundingBox),
        reqMatches c b = true → c.required_confidence ≤ b.confidence) := by
  constructor
  · intro sd bs c b hc hb ht htx
    exact find_none_of_exclusion ⟨c, hc, b, hb, by simp [exclMatches, ht, htx]⟩
  · intro c b h
    simp only [reqMatches, Bool.and_eq_true, decide_eq_true_eq] at h
    exact h.2

/-- Witness for claim C9: an element with confidence 0 whose type and
text satisfy the exclusion criterion still disqualifies the state. -/
theorem C9_exclusion_ignores_confidence_witness :
    find_matching_element
      { required_elements := [{ type := "button", text := "Play" }],
        exclude_elements := [{ type := "any", text := "Error", text_match := "contains" }] }
      [{ x := 0, y := 0, width := 10, height := 10, confidence := 0,
         element_type := "text", element_text := "Fatal Error" }] = none :=
  C9_exclusion_ignores_confidence.1 _ _
    { type := "any", text := "Error", text_match := "contains" }
    { x := 0, y := 0, width := 10, height := 10, confidence := 0,
      element_type := "text", element_text := "Fatal Error" }
    (by decide) (by decide) (by decide) (by decide)

/-! ## Claim C6 -/

/-- Claim C6: `get_fallback_action` is total and follows the fixed
precedence: the state-specific fallback when one is declared (a declared
fallback being a non-empty action dict — the Python code tests dict
truthiness), else the general fallback when declared, else the default
single escape-key action; and the result is never the empty action. -/
theorem C6_fallback_precedence (fallbacks : List (String × Action)) (s : String) :
    ((alookup fallbacks s).getD [] ≠ [] →
      get_fallback_action fallbacks s = (alookup fallbacks s).getD []) ∧
    ((alookup fallbacks s).getD [] = [] → (alookup fallbacks "general").getD [] ≠ [] →
      get_fallback_action fallbacks s = (alookup fallbacks "general").getD []) ∧
    ((alookup fallbacks s).getD [] = [] → (alookup fallbacks "general").getD [] = [] →
      get_fallback_action fallbacks s = escapeAction) ∧
    get_fallback_action fallbacks s ≠ [] := by
  unfold get_fallback_action
  by_cases h1 : (alookup fallbacks s).getD [] = [] <;>
    by_cases h2 : (alookup fallbacks "general").getD [] = [] <;>
      simp [h1, h2, escapeAction, keyAction]

/-- Witness for claim C6: a declared state-specific fallback is returned
as-is. -/
theorem C6_fallback_precedence_witness :
    get_fallback_action [("menu", keyAction "f1")] "menu" = keyAction "f1" := by
  have h := (C6_fallback_precedence [("menu", keyAction "f1")] "menu").1 (by decide)
  simpa using h

/-! ## Claim C4 -/

instance (i : IterInput) : Decidable (failingAttempt i) := by
  unfold failingAttempt; infer_instance

/-- A failing attempt reduces one `run`-loop iteration to either the
abort or the retry recursion. -/
theorem runLoop_cons_failing {numSteps : Nat} {i : IterInput} (hf : failingAttempt i)
    (rest : List IterInput) (cs r a : Nat) (hcs : cs ≤ numSteps) :
    runLoop numSteps 3 (i :: rest) cs r a =
      if r + 1 ≥ 3 then (some false, a + 1)
      else runLoop numSteps 3 rest cs (r + 1) (a + 1) := by
  obtain ⟨h1, h2, h3, h4, h5⟩ := hf
  simp only [runLoop, h1, h2, h3, h4, h5]
  rw [if_neg (Nat.not_lt.mpr hcs)]
  simp

/-- Fewer failing attempts than the remaining retry budget: the loop
consumes them all and is still running. -/
theorem runLoop_failing_short (numSteps : Nat) :
    ∀ (inputs : List IterInput), (∀ i ∈ inputs, failingAttempt i) →
      ∀ (cs r a : Nat), cs ≤ numSteps → r + inputs.length < 3 →
        runLoop numSteps 3 inputs cs r a = (none, a + inputs.length) := by
  intro inputs
  induction inputs with
  | nil =>
    intro _ cs r a hcs _
    simp [runLoop, Nat.not_lt.mpr hcs]
  | cons i rest ih =>
    intro hall cs r a hcs hlen
    rw [runLoop_cons_failing (hall i (List.mem_cons_self i rest)) rest cs r a hcs]
    rw [if_neg (by simp at hlen ⊢; omega)]
    rw [ih (fun j hj => hall j (List.mem_cons_of_mem i hj)) cs (r + 1) (a + 1) hcs
      (by simp at hlen; omega)]
    simp; omega

/-- At least as many failing attempts as the remaining retry budget: the
loop aborts with `False` after consuming exactly the budget. -/
theorem runLoop_failing_long (numSteps : Nat) :
    ∀ (inputs : List IterInput), (∀ i ∈ inputs, failingAttempt i) →
      ∀ (cs r a : Nat), cs ≤ numSteps → r < 3 → 3 ≤ r + inputs.length →
        runLoop numSteps 3 inputs cs r a = (some false, a + (3 - r)) := by
  intro inputs
  induction inputs with
  | nil =>
    intro _ cs r a _ hr hlen
    simp at hlen; omega
  | cons i rest ih =>
    intro hall cs r a hcs hr hlen
    rw [runLoop_cons_failing (hall i (List.mem_cons_self i rest)) rest cs r a hcs]
    by_cases hlim : r + 1 ≥ 3
    · rw [if_pos hlim]
      have : 3 - r = 1 := by omega
      rw [this]
    · rw [if_neg hlim]
      rw [ih (fun j hj => hall j (List.mem_cons_of_mem i hj)) cs (r + 1) (a + 1) hcs
        (by omega) (by simp at hlen; omega)]
      simp; omega

/-- Claim C4: in `SimpleAutomation.run`, a step that fails on every
attempt is attempted exactly `max_retries` (= 3) times — with three
failing attempts available the run aborts returning `False` after
exactly 3 attempts, and with fewer than 3 the run never aborts — and a
step whose `find` criterion matches no detected element fails via the
`find` gate of `_process_step_modular`. -/
theorem C4_retry_budget :
    (∀ (numSteps : Nat) (inputs : List IterInput), 1 ≤ numSteps →
        (∀ i ∈ inputs, failingAttempt i) →
        (3 ≤ inputs.length → sa_run numSteps inputs = (some false, 3)) ∧
        (inputs.length < 3 → sa_run numSteps inputs = (none, inputs.length))) ∧
    (∀ (f : Criterion) (bs : List BoundingBox) (restOutcome : Bool),
        (∀ b ∈ bs, ¬ (sa_type_match f.type b.element_type &&
            textMatches f.text_match f.text b.element_text) = true) →
        process_step_result (some f) bs restOutcome = false) := by
  constructor
  · intro numSteps inputs hn hall
    constructor
    · intro hlen
      rw [sa_run, if_neg (by omega),
        runLoop_failing_long numSteps inputs hall 1 0 0 hn (by omega) (by omega)]
    · intro hlen
      rw [sa_run, if_neg (by omega),
        runLoop_failing_short numSteps inputs hall 1 0 0 hn (by omega)]
      simp
  · intro f bs restOutcome hnone
    have hfind : sa_find_matching_element f bs = none :=
      List.find?_eq_none.mpr hnone
    simp [process_step_result, hfind]

/-- Witness for claim C4: one step, three failing attempts, run aborts
with `False` after exactly 3 attempts. -/
theorem C4_retry_budget_witness :
    sa_run 1 [{}, {}, {}] = (some false, 3) :=
  (C4_retry_budget.1 1 [{}, {}, {}] (by decide) (by decide)).1 (by decide)

/-! ## Claim C7 -/

/-- The accumulator update a coinciding reference element performs. -/
def bumpAcc (acc : CalScan) : CalScan :=
  { found_reference := true,
    suggested_scale_x := acc.suggested_scale_x + 1,
    suggested_scale_y := acc.suggested_scale_y + 1,
    total_elements := acc.total_elements + 1 }

/-- Invariant of the reference scan under coinciding references: both
suggested-scale sums equal the qualifying-element count, and the found
flag tracks its positivity. -/
def GoodAcc (acc : CalScan) : Prop :=
  acc.suggested_scale_x = (acc.total_elements : ℚ) ∧
  acc.suggested_scale_y = (acc.total_elements : ℚ) ∧
  (acc.found_reference = true ↔ 0 < acc.total_elements)

/-- A non-qualifying element leaves the scan accumulator unchanged. -/
theorem calScanStep_not_qual {w fh : Nat} {b : BoundingBox}
    (h : qualifies w fh b = false) (acc : CalScan) : calScanStep w fh acc b = acc := by
  unfold calScanStep
  split
  · rfl
  · rename_i r heq
    rw [if_neg]
    rintro ⟨h1, h2⟩
    unfold qualifies at h
    rw [heq] at h
    simp [h1, h2] at h

/-- A qualifying element whose detected center coincides (positively)
with its expected position contributes exactly 1 to each suggested-scale
sum and to the count, and sets the found flag. -/
theorem calScanStep_coin {w fh : Nat} {b : BoundingBox}
    (hq : qualifies w fh b = true) (hc : coincides w fh b = true) (acc : CalScan) :
    calScanStep w fh acc b = bumpAcc acc := by
  unfold calScanStep bumpAcc
  split
  · rename_i heq
    unfold qualifies at hq
    rw [heq] at hq
    cases hq
  · rename_i r heq
    unfold qualifies at hq
    rw [heq] at hq
    simp only [Bool.and_eq_true, decide_eq_true_eq] at hq
    unfold coincides at hc
    rw [heq] at hc
    simp only [Bool.and_eq_true, decide_eq_true_eq] at hc
    obtain ⟨⟨⟨hex, hey⟩, hdx⟩, hdy⟩ := hc
    rw [if_pos ⟨hq.1, hq.2⟩, if_pos hdx, if_pos hdy]
    have hxq : ((pyInt (r.1 * w) : Int) : ℚ) / ((detCenterX b : Int) : ℚ) = 1 := by
      rw [← hex]
      exact div_self (by exact_mod_cast ne_of_gt hdx)
    have hyq : ((pyInt (r.2 * fh) : Int) : ℚ) / ((detCenterY b : Int) : ℚ) = 1 := by
      rw [← hey]
      exact div_self (by exact_mod_cast ne_of_gt hdy)
    rw [hxq, hyq]

/-- Folding the reference scan over a list of elements in which every
qualifying element coincides with its expected position preserves the
scan invariant, never decreases the count, and yields a positive count
as soon as some element qualifies. -/
theorem calScan_fold (w fh : Nat) :
    ∀ (bs : List BoundingBox) (acc : CalScan),
      (∀ b ∈ bs, qualifies w fh b = true → coincides w fh b = true) →
      GoodAcc acc →
      GoodAcc (bs.foldl (calScanStep w fh) acc) ∧
      acc.total_elements ≤ (bs.foldl (calScanStep w fh) acc).total_elements ∧
      ((∃ b ∈ bs, qualifies w fh b = true) →
        0 < (bs.foldl (calScanStep w fh) acc).total_elements) := by
  intro bs
  induction bs with
  | nil =>
    intro acc _ hg
    refine ⟨hg, le_refl _, ?_⟩
    rintro ⟨b, hb, _⟩
    exact absurd hb (List.not_mem_nil b)
  | cons b rest ih =>
    intro acc hall hg
    have hrest := fun b' hb' => hall b' (List.mem_cons_of_mem b hb')
    simp only [List.foldl_cons]
    by_cases hq : qualifies w fh b = true
    · have hc := hall b (List.mem_cons_self b rest) hq
      rw [calScanStep_coin hq hc acc]
      have hg' : GoodAcc (bumpAcc acc) := by
        obtain ⟨g1, g2, _⟩ := hg
        exact ⟨by simp [bumpAcc, g1], by simp [bumpAcc, g2], by simp [bumpAcc]⟩
      obtain ⟨f1, f2, _⟩ := ih (bumpAcc acc) hrest hg'
      have hb : (bumpAcc acc).total_elements = acc.total_elements + 1 := rfl
      rw [hb] at f2
      refine ⟨f1, ?_, fun _ => ?_⟩
      · exact le_trans (Nat.le_succ _) f2
      · exact lt_of_lt_of_le (Nat.succ_pos _) f2
    · have hq' : qualifies w fh b = false := by
        revert hq; cases qualifies w fh b <;> simp
      rw [calScanStep_not_qual hq' acc]
      obtain ⟨f1, f2, f3⟩ := ih acc hrest hg
      refine ⟨f1, f2, ?_⟩
      rintro ⟨b', hb', hqb'⟩
      rcases List.mem_cons.mp hb' with rfl | hmem
      · rw [hq'] at hqb'; cases hqb'
      · exact f3 ⟨b', hmem, hqb'⟩

/-- One qualifying observation with coinciding references: the sample
count increments, both sums grow by exactly 1, both scale factors become
1, and the calibrated flag is set once the count reaches the sample
threshold. -/
theorem calibrate_good_step (st : ScalerState) (w fh : Nat) (bs : List BoundingBox)
    (hobs : goodObs w fh bs)
    (hx : st.sum_scale_x = (st.calibration_count : ℚ))
    (hy : st.sum_scale_y = (st.calibration_count : ℚ)) :
    (calibrate_from_screenshot st w fh bs).calibration_count = st.calibration_count + 1 ∧
    (calibrate_from_screenshot st w fh bs).sum_scale_x = ((st.calibration_count + 1 : Nat) : ℚ) ∧
    (calibrate_from_screenshot st w fh bs).sum_scale_y = ((st.calibration_count + 1 : Nat) : ℚ) ∧
    (calibrate_from_screenshot st w fh bs).max_calibration_samples = st.max_calibration_samples ∧
    (calibrate_from_screenshot st w fh bs).scale_x = 1 ∧
    (calibrate_from_screenshot st w fh bs).scale_y = 1 ∧
    (calibrate_from_screenshot st w fh bs).calibrated =
      (if st.calibration_count + 1 ≥ st.max_calibration_samples then true
       else st.calibrated) := by
  obtain ⟨hex, hco⟩ := hobs
  obtain ⟨⟨g1, g2, g3⟩, _, hpos⟩ :=
    calScan_fold w fh bs {} hco ⟨by simp, by simp, by simp⟩
  have htot : 0 < (calScan w fh bs).total_elements := hpos hex
  have hfound : (calScan w fh bs).found_reference = true := g3.mpr htot
  have htotQ : ((calScan w fh bs).total_elements : ℚ) ≠ 0 :=
    Nat.cast_ne_zero.mpr (Nat.pos_iff_ne_zero.mp htot)
  have hnsx : (calScan w fh bs).suggested_scale_x / ((calScan w fh bs).total_elements : ℚ) = 1 := by
    unfold calScan
    rw [g1]
    exact div_self htotQ
  have hnsy : (calScan w fh bs).suggested_scale_y / ((calScan w fh bs).total_elements : ℚ) = 1 := by
    unfold calScan
    rw [g2]
    exact div_self htotQ
  have hcntQ : ((st.calibration_count + 1 : Nat) : ℚ) ≠ 0 :=
    Nat.cast_ne_zero.mpr (Nat.succ_ne_zero _)
  have hsc : st.sum_scale_x + 1 = ((st.calibration_count + 1 : Nat) : ℚ) := by
    rw [hx]; push_cast; ring
  have hsc' : st.sum_scale_y + 1 = ((st.calibration_count + 1 : Nat) : ℚ) := by
    rw [hy]; push_cast; ring
  unfold calibrate_from_screenshot
  rw [if_pos ⟨hfound, htot⟩, hnsx, hnsy]
  split_ifs with hmax
  · refine ⟨rfl, hsc, hsc', rfl, ?_, ?_, rfl⟩
    · show (st.sum_scale_x + 1) / ((st.calibration_count + 1 : Nat) : ℚ) = 1
      rw [hsc]; exact div_self hcntQ
    · show (st.sum_scale_y + 1) / ((st.calibration_count + 1 : Nat) : ℚ) = 1
      rw [hsc']; exact div_self hcntQ
  · refine ⟨rfl, hsc, hsc', rfl, ?_, ?_, rfl⟩
    · show (st.sum_scale_x + 1) / ((st.calibration_count + 1 : Nat) : ℚ) = 1
      rw [hsc]; exact div_self hcntQ
    · show (st.sum_scale_y + 1) / ((st.calibration_count + 1 : Nat) : ℚ) = 1
      rw [hsc']; exact div_self hcntQ

/-- Claim C7: starting from a fresh `CoordinateScaler` (3 calibration
samples required), after three qualifying observations in each of which
every qualifying reference element's detected center coincides exactly
with its expected position (implied scale factor 1 on both axes), the
`calibrated` flag is set and the running-average scale factors `scale_x`
and `scale_y` are exactly 1. -/
theorem C7_calibration_converges
    (w1 h1 w2 h2 w3 h3 : Nat) (bs1 bs2 bs3 : List BoundingBox)
    (hg1 : goodObs w1 h1 bs1) (hg2 : goodObs w2 h2 bs2) (hg3 : goodObs w3 h3 bs3) :
    (calibrate_from_screenshot (calibrate_from_screenshot
        (calibrate_from_screenshot {} w1 h1 bs1) w2 h2 bs2) w3 h3 bs3).calibrated = true ∧
    (calibrate_from_screenshot (calibrate_from_screenshot
        (calibrate_from_screenshot {} w1 h1 bs1) w2 h2 bs2) w3 h3 bs3).scale_x = 1 ∧
    (calibrate_from_screenshot (calibrate_from_screenshot
        (calibrate_from_screenshot {} w1 h1 bs1) w2 h2 bs2) w3 h3 bs3).scale_y = 1 := by
  obtain ⟨c1cnt, c1sx, c1sy, c1max, _, _, c1cal⟩ :=
    calibrate_good_step {} w1 h1 bs1 hg1 (by simp) (by simp)
  obtain ⟨c2cnt, c2sx, c2sy, c2max, _, _, c2cal⟩ :=
    calibrate_good_step (calibrate_from_screenshot {} w1 h1 bs1) w2 h2 bs2 hg2
      (by rw [c1sx, c1cnt]) (by rw [c1sy, c1cnt])
  obtain ⟨c3cnt, c3sx, c3sy, c3max, c3scx, c3scy, c3cal⟩ :=
    calibrate_good_step (calibrate_from_screenshot
        (calibrate_from_screenshot {} w1 h1 bs1) w2 h2 bs2) w3 h3 bs3 hg3
      (by rw [c2sx, c2cnt, c1cnt]) (by rw [c2sy, c2cnt, c1cnt])
  refine ⟨?_, c3scx, c3scy⟩
  have hcond : ({} : ScalerState).calibration_count + 1 + 1 + 1 ≥
      ({} : ScalerState).max_calibration_samples := by decide
  rw [c3cal, c2cnt, c1cnt, c2max, c1max, if_pos hcond]

/-- The concrete reference element of the C7 witness: text "Play"
(reference label PLAY), detected center (400, 30) on an 800×600
screenshot — exactly the expected position. -/
def c7RefBox : BoundingBox :=
  { x := 390, y := 20, width := 20, height := 20, confidence := 0.9,
    element_type := "button", element_text := "Play" }

/-- Witness for claim C7: three no-op observations of the PLAY reference
at its exact expected position calibrate the scaler to scale factors 1. -/
theorem C7_calibration_converges_witness :
    (calibrate_from_screenshot (calibrate_from_screenshot
        (calibrate_from_screenshot {} 800 600 [c7RefBox]) 800 600 [c7RefBox])
        800 600 [c7RefBox]).calibrated = true ∧
    (calibrate_from_screenshot (calibrate_from_screenshot
        (calibrate_from_screenshot {} 800 600 [c7RefBox]) 800 600 [c7RefBox])
        800 600 [c7RefBox]).scale_x = 1 ∧
    (calibrate_from_screenshot (calibrate_from_screenshot
        (calibrate_from_screenshot {} 800 600 [c7RefBox]) 800 600 [c7RefBox])
        800 600 [c7RefBox]).scale_y = 1 :=
  C7_calibration_converges 800 600 800 600 800 600 [c7RefBox] [c7RefBox] [c7RefBox]
    ⟨⟨c7RefBox, by decide, by decide⟩, by decide⟩
    ⟨⟨c7RefBox, by decide, by decide⟩, by decide⟩
    ⟨⟨c7RefBox, by decide, by decide⟩, by decide⟩
/-! ## Claim C8 -/

/-- Claim C8: `_identify_current_state` is read-only and idempotent —
as a state transformer it returns the engine unchanged, a second call on
the returned engine with the same element list yields the same state
name, and the returned name depends only on the state definitions, the
transitions, the state history and the context variables of the
engine. -/
theorem C8_identify_pure :
    (∀ (e : Engine) (bs : List BoundingBox),
        (identify_current_state_call e bs).2 = e ∧
        (identify_current_state_call (identify_current_state_call e bs).2 bs).1 =
          (identify_current_state_call e bs).1) ∧
    (∀ (e e' : Engine) (bs : List BoundingBox),
        e.states = e'.states → e.transitions = e'.transitions →
        e.state_history = e'.state_history → e.state_context = e'.state_context →
        identify_current_state e bs = identify_current_state e' bs) := by
  constructor
  · intro e bs
    exact ⟨rfl, rfl⟩
  · intro e e' bs h1 h2 h3 h4
    cases e
    cases e'
    simp only at h1 h2 h3 h4
    subst h1 h2 h3 h4
    rfl

/-- Witness for claim C8: two engines agreeing on the four read fields
but differing in visited states and current state identify the same
state. -/
theorem C8_identify_pure_witness :
    identify_current_state
      { states := [("menu", { required_elements := [{ text := "Play", type := "button" }] })],
        current_state := "initial", visited_states := [] } [] =
    identify_current_state
      { states := [("menu", { required_elements := [{ text := "Play", type := "button" }] })],
        current_state := "menu", visited_states := ["initial", "menu"] } [] :=
  C8_identify_pure.2 _ _ [] rfl rfl rfl rfl
/-! ## Claim C10 -/

/-- The state-history invariants of claim C10: no two equal adjacent
entries, and every entry is a member of the visited set. -/
def HistInv (e : Engine) : Prop :=
  e.state_history.Chain' (fun a b => a ≠ b) ∧
  ∀ s ∈ e.state_history, s ∈ e.visited_states

/-- Membership in the modelled `set.add`. -/
theorem mem_insertStr {l : List String} {s a : String} :
    a ∈ insertStr l s ↔ a ∈ l ∨ a = s := by
  unfold insertStr
  split_ifs with h
  · exact ⟨Or.inl, fun hc => hc.elim id (fun he => he ▸ h)⟩
  · simp [List.mem_append]

/-- Appending a state different from the last history entry preserves
the history invariants. -/
theorem histInv_push (e : Engine) (s : String) (now : ℚ)
    (hg : e.state_history = [] ∨ e.state_history.getLast? ≠ some s) :
    HistInv e →
    HistInv { e with state_history := e.state_history ++ [s],
                     visited_states := insertStr e.visited_states s,
                     state_start_times := dictSet e.state_start_times s now } := by
  rintro ⟨hch, hsub⟩
  constructor
  · rw [List.chain'_append]
    refine ⟨hch, List.chain'_singleton s, ?_⟩
    intro x hx y hy
    simp only [List.head?_cons, Option.mem_def, Option.some.injEq] at hy
    subst hy
    rcases hg with h0 | hne
    · rw [h0] at hx
      simp at hx
    · intro hxy
      subst hxy
      exact hne hx
  · intro t ht
    rcases List.mem_append.mp ht with hmem | hs
    · exact mem_insertStr.mpr (Or.inl (hsub t hmem))
    · simp only [List.mem_singleton] at hs
      exact mem_insertStr.mpr (Or.inr hs)

/-- `historyUpdate` preserves the history invariants. -/
theorem histInv_historyUpdate (e : Engine) (s : String) (now : ℚ) :
    HistInv e → HistInv (historyUpdate e s now) := by
  intro h
  unfold historyUpdate
  split_ifs with hg
  · exact histInv_push e s now hg h
  · exact h

/-- `historyUpdate2` preserves the history invariants. -/
theorem histInv_historyUpdate2 (e : Engine) (s : String) (now : ℚ) :
    HistInv e → HistInv (historyUpdate2 e s now) := by
  intro h
  unfold historyUpdate2
  split_ifs with hg
  · exact histInv_push e s now (Or.inr hg.2) h
  · exact h

/-- `_get_action_for_transition` never touches the state history or the
visited set. -/
theorem gat_preserves_hist (e : Engine) (fs ts : String) (bs : List BoundingBox) :
    (get_action_for_transition e fs ts bs).2.state_history = e.state_history ∧
    (get_action_for_transition e fs ts bs).2.visited_states = e.visited_states := by
  unfold get_action_for_transition
  cases halo : alookup e.transitions (fs ++ "->" ++ ts) with
  | none => exact ⟨rfl, rfl⟩
  | some t =>
    dsimp only
    cases hco : t.hardcoded_coords with
    | some c => exact ⟨rfl, rfl⟩
    | none =>
      dsimp only
      split_ifs with h1 h2 h3 h4 <;> exact ⟨rfl, rfl⟩

/-- `track_benchmark_timing` never touches the state history or the
visited set. -/
theorem track_start_preserves_hist (e : Engine) (ns : String) (now : ℚ) :
    (track_start e ns now).state_history = e.state_history ∧
    (track_start e ns now).visited_states = e.visited_states := by
  unfold track_start
  split_ifs <;> exact ⟨rfl, rfl⟩

/-- `track_complete` never touches the state history or the visited
set. -/
theorem track_complete_preserves_hist (e : Engine) (cs ns : String) (now : ℚ) :
    (track_complete e cs ns now).state_history = e.state_history ∧
    (track_complete e cs ns now).visited_states = e.visited_states := by
  unfold track_complete
  split_ifs with h1
  · cases e.benchmark_started_at <;> refine ⟨?_, ?_⟩ <;> rfl
  · exact ⟨rfl, rfl⟩

/-- `track_benchmark_timing` never touches the state history or the
visited set. -/
theorem track_preserves_hist (e : Engine) (cs ns : String) (now : ℚ) :
    (track_benchmark_timing e cs ns now).state_history = e.state_history ∧
    (track_benchmark_timing e cs ns now).visited_states = e.visited_states := by
  unfold track_benchmark_timing
  obtain ⟨a1, a2⟩ := track_complete_preserves_hist (track_start e ns now) cs ns now
  obtain ⟨b1, b2⟩ := track_start_preserves_hist e ns now
  exact ⟨a1.trans b1, a2.trans b2⟩

/-- Transport of the history invariants along history/visited
equality. -/
theorem histInv_of_eq {e e' : Engine}
    (h1 : e'.state_history = e.state_history)
    (h2 : e'.visited_states = e.visited_states) : HistInv e → HistInv e' := by
  rintro ⟨a, b⟩
  rw [HistInv, h1, h2]
  exact ⟨a, b⟩

/-- Claim C10: the freshly constructed engine satisfies the history
invariants (empty history, empty visited set), and every call of
`determine_next_action` preserves them: the history never holds two
equal adjacent entries, and every held state name is in the visited
set. -/
theorem C10_history_invariant :
    (∀ (states : List (String × StateDef)) (transitions : List (String × Transition))
        (fallbacks : List (String × Action)) (initial target : String),
        HistInv (mkEngine states transitions fallbacks initial target)) ∧
    (∀ (e : Engine) (cs0 : String) (bs : List BoundingBox) (now : ℚ),
        HistInv e → HistInv (determine_next_action e cs0 bs now).2.2) := by
  constructor
  · intro states transitions fallbacks initial target
    exact ⟨List.chain'_nil, fun s hs => absurd hs (List.not_mem_nil s)⟩
  · intro e cs0 bs now h
    have h2 : HistInv (correctedEngine e cs0 bs now) := by
      unfold correctedEngine
      split_ifs with hc
      · exact histInv_historyUpdate2 _ _ _ (histInv_historyUpdate e cs0 now h)
      · exact histInv_historyUpdate e cs0 now h
    simp only [determine_next_action]
    split_ifs with ha hb hc hd
    · exact h2
    · exact h2
    · exact h2
    · exact h2
    · obtain ⟨t1, t2⟩ := track_preserves_hist
        (get_action_for_transition (correctedEngine e cs0 bs now)
          (correctedState e cs0 bs now)
          (select_next_state (correctedEngine e cs0 bs now) (correctedState e cs0 bs now)) bs).2
        (correctedState e cs0 bs now)
        (select_next_state (correctedEngine e cs0 bs now) (correctedState e cs0 bs now)) now
      obtain ⟨g1, g2⟩ := gat_preserves_hist (correctedEngine e cs0 bs now)
        (correctedState e cs0 bs now)
        (select_next_state (correctedEngine e cs0 bs now) (correctedState e cs0 bs now)) bs
      exact histInv_of_eq (t1.trans g1) (t2.trans g2) h2

/-- Witness for claim C10: the invariants hold after a call on a fresh
engine. -/
theorem C10_history_invariant_witness :
    HistInv ((determine_next_action (mkEngine [] [] [] "initial" "completed")
      "initial" [] 0).2.2) :=
  C10_history_invariant.2 (mkEngine [] [] [] "initial" "completed") "initial" [] 0
    (C10_history_invariant.1 [] [] [] "initial" "completed")
/-! ## Claim C3 -/

/-- The engine of the C3 counterexample: one declared state `menu`
(requiring a `button` "Play"), no transitions, target `completed`. -/
def c3Engine : Engine :=
  mkEngine [("menu", { required_elements := [{ type := "button", text := "Play" }] })]
    [] [] "initial" "completed"

/-- The detected element of the C3 counterexample. -/
def c3Box : BoundingBox :=
  { x := 100, y := 50, width := 80, height := 20, confidence := 0.9,
    element_type := "button", element_text := "Play" }

/-- Claim C3 is false as stated: `determine_next_action` called with
`current_state` equal to the configured target state `"completed"` does
not return the target state when the elements identify a different state
— the verified state `"menu"` overrides the passed current state before
the target check, and the call returns new state `"menu"`. -/
theorem C3_counterexample :
    (determine_next_action c3Engine "completed" [c3Box] 0).2.1 = "menu" ∧
    c3Engine.target_state = "completed" ∧ ("menu" : String) ≠ "completed" := by
  decide

/-- `historyUpdate` changes no configuration field. -/
theorem historyUpdate_config (e : Engine) (s : String) (now : ℚ) :
    (historyUpdate e s now).target_state = e.target_state ∧
    (historyUpdate e s now).transitions = e.transitions ∧
    (historyUpdate e s now).fallbacks = e.fallbacks := by
  unfold historyUpdate
  split_ifs <;> exact ⟨rfl, rfl, rfl⟩

/-- `historyUpdate2` changes no configuration field. -/
theorem historyUpdate2_config (e : Engine) (s : String) (now : ℚ) :
    (historyUpdate2 e s now).target_state = e.target_state ∧
    (historyUpdate2 e s now).transitions = e.transitions ∧
    (historyUpdate2 e s now).fallbacks = e.fallbacks := by
  unfold historyUpdate2
  split_ifs <;> exact ⟨rfl, rfl, rfl⟩

/-- The state-correction step changes no configuration field. -/
theorem correctedEngine_config (e : Engine) (cs0 : String) (bs : List BoundingBox) (now : ℚ) :
    (correctedEngine e cs0 bs now).target_state = e.target_state ∧
    (correctedEngine e cs0 bs now).transitions = e.transitions ∧
    (correctedEngine e cs0 bs now).fallbacks = e.fallbacks := by
  unfold correctedEngine
  split_ifs with hc
  · obtain ⟨a1, a2, a3⟩ := historyUpdate2_config (historyUpdate e cs0 now) (verifiedOf e cs0 bs now) now
    obtain ⟨b1, b2, b3⟩ := historyUpdate_config e cs0 now
    exact ⟨a1.trans b1, a2.trans b2, a3.trans b3⟩
  · exact historyUpdate_config e cs0 now

/-- Claim C3, amended: whenever `determine_next_action` is called with
`current_state` equal to the configured target state and the state
verified from the detected elements is `"unknown"` or the target state
itself (so that the state-correction step does not adopt a different
state), it returns no action together with the target state as the new
state. -/
theorem C3_target_state_terminal (e : Engine) (bs : List BoundingBox) (now : ℚ)
    (hv : verifiedOf e e.target_state bs now = "unknown" ∨
          verifiedOf e e.target_state bs now = e.target_state) :
    (determine_next_action e e.target_state bs now).1 = [] ∧
    (determine_next_action e e.target_state bs now).2.1 = e.target_state := by
  have hcs : correctedState e e.target_state bs now = e.target_state := by
    unfold correctedState
    split_ifs with h
    · rcases hv with h1 | h1
      · exact absurd h1 h.1
      · exact absurd h1 h.2
    · rfl
  have htg : (correctedEngine e e.target_state bs now).target_state = e.target_state :=
    (correctedEngine_config e e.target_state bs now).1
  simp only [determine_next_action, hcs, htg, if_pos rfl]
  exact ⟨rfl, rfl⟩

/-- Witness for the amended claim C3: an engine with no declared states
(the verified state is `"unknown"`) at its target state receives no
action and stays at the target. -/
theorem C3_target_state_terminal_witness :
    (determine_next_action (mkEngine [] [] [] "initial" "completed") "completed" [] 0).1 = [] ∧
    (determine_next_action (mkEngine [] [] [] "initial" "completed") "completed" [] 0).2.1 =
      "completed" :=
  C3_target_state_terminal (mkEngine [] [] [] "initial" "completed") [] 0 (Or.inl (by decide))
/-! ## Claim C5 -/

/-- Claim C5 is false as stated: with no declared transitions and an
unidentifiable screen, a call at `current_state = "initial"` hits the
second fallback branch and returns the escape-key fallback action, not a
wait action (the returned action's type is "key"). -/
theorem C5_counterexample :
    (determine_next_action (mkEngine [] [] [] "initial" "completed") "initial" [] 0).1 =
      escapeAction ∧
    (determine_next_action (mkEngine [] [] [] "initial" "completed") "initial" [] 0).2.1 =
      "initial" ∧
    alookup escapeAction "type" = some (AVal.s "key") ∧
    alookup (waitAction 3) "type" = some (AVal.s "wait") := by
  decide

/-- Claim C5, amended: for every call of `determine_next_action` in which
the current state is neither `"initial"` nor the target state, no
transition is declared from the current state, and the state verified
from the detected elements is `"unknown"`, the engine returns the wait
action (3 seconds) and resets the current state to `"initial"`. -/
theorem C5_unknown_no_transition (e : Engine) (cs0 : String) (bs : List BoundingBox) (now : ℚ)
    (hinit : cs0 ≠ "initial") (htgt : cs0 ≠ e.target_state)
    (hnotrans : ∀ p ∈ e.transitions, pyStartsWith p.1 (cs0 ++ "->") = false)
    (hv : verifiedOf e cs0 bs now = "unknown") :
    (determine_next_action e cs0 bs now).1 = waitAction 3 ∧
    (determine_next_action e cs0 bs now).2.1 = "initial" := by
  have hcs : correctedState e cs0 bs now = cs0 := by
    unfold correctedState
    rw [if_neg]
    rintro ⟨a, _⟩
    exact a hv
  have htg : (correctedEngine e cs0 bs now).target_state = e.target_state :=
    (correctedEngine_config e cs0 bs now).1
  have htr : (correctedEngine e cs0 bs now).transitions = e.transitions :=
    (correctedEngine_config e cs0 bs now).2.1
  have hsel : select_next_state (correctedEngine e cs0 bs now) cs0 = "" := by
    unfold select_next_state
    rw [htr]
    have hnil : e.transitions.filterMap (fun p =>
        if pyStartsWith p.1 (cs0 ++ "->") = true then
          some ((pySplit p.1 "->").getD 1 "") else none) = [] := by
      rw [List.filterMap_eq_nil_iff]
      intro p hp
      rw [if_neg]
      rw [hnotrans p hp]
      simp
    rw [hnil]
    simp
  have hne : cs0 ≠ (correctedEngine e cs0 bs now).target_state := by
    rw [htg]; exact htgt
  simp only [determine_next_action, hcs, hsel, hv]
  simp [hinit, hne]

/-- Witness for the amended claim C5: a call at state `"menu"` with no
transitions and an unidentifiable screen yields the 3-second wait and a
reset to `"initial"`. -/
theorem C5_unknown_no_transition_witness :
    (determine_next_action (mkEngine [] [] [] "initial" "completed") "menu" [] 0).1 =
      waitAction 3 ∧
    (determine_next_action (mkEngine [] [] [] "initial" "completed") "menu" [] 0).2.1 =
      "initial" :=
  C5_unknown_no_transition (mkEngine [] [] [] "initial" "completed") "menu" [] 0
    (by decide) (by decide) (by intro p hp; cases hp) (by decide)
end VCAP
